import Mathlib

/-!
Shallow embedding of the feature-alignment and prediction-invocation logic
of the gastric-cancer survival prediction app (src/程序APP3.py).

Python values (slider floats, radio ints, probabilities) are embedded as ℚ.
The opaque scikit-learn model handle is embedded as a structure of explicit
(fallible) functions; pandas DataFrames built from a single dict are embedded
as ordered association lists from feature name to value (column order =
key insertion order).
-/

namespace App3

/-- Kind and bounds of one input feature, as declared in the
`feature_ranges` registry (lines 195-210 of the source). -/
inductive FeatureKind where
  | numerical (min max default : ℚ)
  | categorical (options : List ℚ) (default : ℚ)
deriving DecidableEq, Repr

/-- The `feature_ranges` registry: one entry per clinical variable, in the
source's declaration order (display-only metadata omitted). -/
def feature_ranges : List (String × FeatureKind) :=
  [("Intraoperative Blood Loss", .numerical 0 800 50),
   ("CEA", .numerical 0 150 8.68),
   ("Albumin", .numerical 1 80 38.60),
   ("TNM Stage", .categorical [1, 2, 3, 4] 2),
   ("Age", .numerical 25 90 76),
   ("Max Tumor Diameter", .numerical 0.2 20 4),
   ("Lymphovascular Invasion", .categorical [0, 1] 1)]

/-- Whether a concrete value satisfies the declared bounds (numerical)
or options (categorical) of a feature kind. -/
def value_in_bounds : FeatureKind → ℚ → Bool
  | .numerical lo hi _, v => decide (lo ≤ v) && decide (v ≤ hi)
  | .categorical opts _, v => opts.contains v

/-- Risk tier labels (低风险 / 中等风险 / 高风险, lines 390-397). -/
inductive Risk where
  | low | moderate | high
deriving DecidableEq, Repr

/-- `risk_category` from the source (lines 390-397): start at low;
if `p > 30 and p <= 70` moderate; elif `p > 70` high.  `p` is the
death probability in percent. -/
def risk_category (p : ℚ) : Risk :=
  if 30 < p ∧ p ≤ 70 then .moderate
  else if 70 < p then .high
  else .low

/-- The model's optional declared feature-name list: `some names` embeds a
loaded model with a `feature_names_in_` attribute, `none` a model without
one (the `hasattr` guard in the source). -/
abbrev ModelNames := Option (List String)

/-- `feature_input_order` (lines 212-233): the model's declared list when
available, else the registry's declaration order. -/
def feature_input_order (mn : ModelNames) : List String :=
  match mn with
  | some names => names
  | none => feature_ranges.map Prod.fst

/-- `feature_ranges_ordered` (lines 216-222): for each model-declared name,
keep the registry entry when the registry has one, skip it (with a sidebar
warning) otherwise. -/
def feature_ranges_ordered (names : List String) : List (String × FeatureKind) :=
  names.filterMap fun f => (feature_ranges.lookup f).map fun k => (f, k)

/-- Names the model declares but the registry lacks — each one gets the
sidebar warning at line 222. -/
def model_only_features (names : List String) : List String :=
  names.filter fun f => (feature_ranges.lookup f).isNone

/-- Registry names absent from the model's declared list — each one gets
the sidebar warning at line 227 (the loop at 225-227 runs over the original
registry, before the rebinding at line 230). -/
def registry_only_features (names : List String) : List String :=
  (feature_ranges.map Prod.fst).filter fun f => !names.contains f

/-- The registry in effect after resolution (line 230 rebinds
`feature_ranges` to `feature_ranges_ordered` when the model declares names). -/
def active_ranges (mn : ModelNames) : List (String × FeatureKind) :=
  match mn with
  | some names => feature_ranges_ordered names
  | none => feature_ranges

/-- The form loop (lines 286-333): for each feature in
`feature_input_order`, look its properties up in the (possibly rebound)
registry — a lookup miss is a Python `KeyError` at line 287, embedded as
`none` — and record the widget value chosen by the user (`choose` maps a
feature and its declared kind to the submitted value).  On success the
result is the `feature_values` dict in insertion order. -/
def render_fields (ranges : List (String × FeatureKind))
    (choose : String → FeatureKind → ℚ) :
    List String → Option (List (String × ℚ))
  | [] => some []
  | f :: t =>
      match ranges.lookup f with
      | none => none
      | some k =>
          match render_fields ranges choose t with
          | none => none
          | some rest => some ((f, choose f k) :: rest)

/-- The form loop (lines 286-333) proper: walk `feature_input_order` over
the active registry. -/
def render_form (mn : ModelNames) (choose : String → FeatureKind → ℚ) :
    Option (List (String × ℚ)) :=
  render_fields (active_ranges mn) choose (feature_input_order mn)

/-- Failure of the vector-building block: the `st.error` + `st.stop` at
lines 370-371, carrying the full list of missing features. -/
inductive BuildError where
  | missingFeature (names : List String)
deriving DecidableEq, Repr

/-- `missing_features` (line 368): model-required names with no column in
the raw input. -/
def missing_features (names : List String) (raw : List (String × ℚ)) :
    List String :=
  names.filter fun f => (raw.lookup f).isNone

/-- The vector-building block (lines 362-377), `build_vector` in the spec.
`raw` is the `feature_values` dict as an insertion-ordered association
list; `pd.DataFrame([feature_values])` has its columns in that order.
When the model declares feature names, missing ones abort the request
(lines 366-371) and otherwise the columns are re-indexed to the declared
order (line 374); when it declares none, the frame is passed through
unchanged. -/
def build_vector (mn : ModelNames) (raw : List (String × ℚ)) :
    Except BuildError (List (String × ℚ)) :=
  match mn with
  | some names =>
      if missing_features names raw = [] then
        .ok (names.filterMap fun f => (raw.lookup f).map fun v => (f, v))
      else
        .error (.missingFeature (missing_features names raw))
  | none => .ok raw

/-- Output of the external SHAP engine (`explainer(features_df)`): either a
per-class array of shape instances × features × classes (ndim 3), or a flat
per-feature array of shape instances × features (ndim 2). -/
inductive ShapOutput where
  | perClass (values : List (List (List ℚ)))
  | flat (values : List (List ℚ))
deriving DecidableEq, Repr

/-- The shape dispatch at lines 490-495: for a per-class output
(`len(shap_values.values.shape) > 2`) take `shap_values[0, :, 1]` — instance
0, class index 1 of every feature — and for a flat output take
`shap_values[0]` directly.  Out-of-range indexing is a numpy `IndexError`,
embedded as `.error`. -/
def slice_class_one : List (List ℚ) → Except String (List ℚ)
  | [] => .ok []
  | cs :: t =>
      match cs.get? 1 with
      | none => .error "IndexError"
      | some c =>
          match slice_class_one t with
          | .error e => .error e
          | .ok rest => .ok (c :: rest)

/-- The dispatch proper: choose the slice by the array's number of
dimensions. -/
def select_contributions (s : ShapOutput) : Except String (List ℚ) :=
  match s with
  | .perClass vals =>
      match vals.get? 0 with
      | none => .error "IndexError"
      | some rows => slice_class_one rows
  | .flat vals =>
      match vals.get? 0 with
      | none => .error "IndexError"
      | some row => .ok row

/-- The opaque loaded model plus its SHAP explainer, embedded as explicit
fallible functions: `.error msg` stands for a raised Python exception with
message `msg`.  `explain` is `shap.Explainer(model)` applied to the
single-row frame. -/
structure Model where
  feature_names : ModelNames
  predict : List ℚ → Except String (List ℤ)
  predict_proba : List ℚ → Except String (List (List ℚ))
  explain : List (String × ℚ) → Except String ShapOutput

/-- What the SHAP block (lines 477-515) contributes to the rendered page:
either the waterfall chart of the selected contributions, or — when the
inner `except` at line 513 catches — the `st.error` + `st.warning` pair,
after which the request still completes. -/
inductive AttributionOutcome where
  | chart (contributions : List ℚ)
  | failed (msg : String)
deriving DecidableEq, Repr

/-- The prediction metrics rendered at lines 399-475: predicted class,
death probability (percent), survival probability and risk tier. -/
structure PredictionResult where
  predicted_class : ℤ
  death_probability : ℚ
  survival_probability : ℚ
  risk : Risk
deriving DecidableEq, Repr

/-- Outcome of one submitted request (the `col2` block at lines 357-521):
`aborted` is the missing-feature `st.error` + `st.stop` (lines 370-371),
`predictionFailed` the outer `except` at line 517 (error reported, no
result shown), and `shown` a rendered prediction result together with the
attribution outcome. -/
inductive RequestOutcome where
  | aborted (missing : List String)
  | predictionFailed (msg : String)
  | shown (result : PredictionResult) (attribution : AttributionOutcome)
deriving DecidableEq, Repr

/-- The SHAP stage (lines 477-515) alone: compute SHAP values on the frame,
dispatch on shape; any exception is caught by the inner handler at
line 513. -/
def attribution_stage (m : Model) (cols : List (String × ℚ)) :
    AttributionOutcome :=
  match m.explain cols with
  | .error e => .failed e
  | .ok s =>
      match select_contributions s with
      | .error e => .failed e
      | .ok contributions => .chart contributions

/-- One prediction request (lines 357-521): build the feature frame, abort
on missing features, convert to an array, call `model.predict` and
`model.predict_proba` (index `[0]` of each result, then `[1]` of the
probability row), derive the death/survival percentages and risk tier, and
finally run the SHAP stage whose failure is non-fatal.  Every exception
escaping the prediction steps lands in the outer handler at line 517. -/
def run_request (m : Model) (raw : List (String × ℚ)) : RequestOutcome :=
  match build_vector m.feature_names raw with
  | .error (.missingFeature ms) => .aborted ms
  | .ok cols =>
      let arr := cols.map Prod.snd
      match m.predict arr with
      | .error e => .predictionFailed e
      | .ok labels =>
          match labels.get? 0 with
          | none => .predictionFailed "IndexError"
          | some cls =>
              match m.predict_proba arr with
              | .error e => .predictionFailed e
              | .ok rows =>
                  match rows.get? 0 with
                  | none => .predictionFailed "IndexError"
                  | some proba =>
                      match proba.get? 1 with
                      | none => .predictionFailed "IndexError"
                      | some p1 =>
                          let death := p1 * 100
                          .shown
                            ⟨cls, death, 100 - death, risk_category death⟩
                            (attribution_stage m cols)

/-- The registry's declaration-order name list. -/
def registry_order : List String := feature_ranges.map Prod.fst

/-- A stub model: accepts any input array, predicts class 0, returns the
given single probability row, and explains with a flat all-zero row. -/
def stub_model (mn : ModelNames) (proba : List ℚ) : Model :=
  { feature_names := mn
    predict := fun _ => .ok [0]
    predict_proba := fun _ => .ok [proba]
    explain := fun cols => .ok (.flat [cols.map fun _ => 0]) }

/-- A stub model whose prediction entry points raise on every input. -/
def failing_model : Model :=
  { feature_names := none
    predict := fun _ => .error "shape mismatch"
    predict_proba := fun _ => .error "shape mismatch"
    explain := fun _ => .error "unsupported model type" }

/-- A widget-choice function that submits every feature's declared default. -/
def default_choice : String → FeatureKind → ℚ
  | _, .numerical _ _ d => d
  | _, .categorical _ d => d

/-- The end-to-end scenario input of §8 of the spec, in its written order. -/
def raw_case : List (String × ℚ) :=
  [("Age", 55), ("TNM Stage", 2), ("Max Tumor Diameter", 2.5),
   ("Albumin", 40), ("CEA", 3.2), ("Lymphovascular Invasion", 0),
   ("Intraoperative Blood Loss", 50)]

/-- A complete raw input, in registry order, whose Age value 1000 violates
the declared bounds 25-90. -/
def raw_age_out_of_bounds : List (String × ℚ) :=
  [("Intraoperative Blood Loss", 50), ("CEA", 8.68), ("Albumin", 38.6),
   ("TNM Stage", 2), ("Age", 1000), ("Max Tumor Diameter", 4),
   ("Lymphovascular Invasion", 1)]

/-- A raw input covering every registry feature except Age, in registry
order. -/
def raw_missing_age : List (String × ℚ) :=
  [("Intraoperative Blood Loss", 50), ("CEA", 8.68), ("Albumin", 38.6),
   ("TNM Stage", 2), ("Max Tumor Diameter", 4),
   ("Lymphovascular Invasion", 1)]

/-- The raw input holding every feature's declared default, in registry
order. -/
def raw_defaults : List (String × ℚ) :=
  [("Intraoperative Blood Loss", 50), ("CEA", 8.68), ("Albumin", 38.6),
   ("TNM Stage", 2), ("Age", 76), ("Max Tumor Diameter", 4),
   ("Lymphovascular Invasion", 1)]

/-- The registry-order raw input with default values, listed in reverse
registry order. -/
def raw_reversed : List (String × ℚ) :=
  [("Lymphovascular Invasion", 1), ("Max Tumor Diameter", 4), ("Age", 76),
   ("TNM Stage", 2), ("Albumin", 38.6), ("CEA", 8.68),
   ("Intraoperative Blood Loss", 50)]

end App3

namespace App3Lemmas

open App3

/-- If the missing-feature check passes, every required name has a column. -/
theorem lookup_isSome_of_missing_nil {names : List String}
    {raw : List (String × ℚ)} (h : missing_features names raw = [])
    {f : String} (hf : f ∈ names) : (raw.lookup f).isSome := by
  by_contra hc
  have : f ∈ missing_features names raw :=
    List.mem_filter.mpr ⟨hf, by simpa [Option.isNone_iff_eq_none] using
      Option.not_isSome_iff_eq_none.mp hc⟩
  rw [h] at this
  exact absurd this (List.not_mem_nil f)

/-- Re-indexing a frame by a name list whose every name has a column
produces columns named exactly by that list, in its order. -/
theorem reindex_map_fst (raw : List (String × ℚ)) :
    ∀ names : List String, (∀ f ∈ names, (raw.lookup f).isSome) →
      (names.filterMap fun f => (raw.lookup f).map fun v => (f, v)).map
          Prod.fst = names
  | [], _ => rfl
  | a :: t, h => by
      obtain ⟨v, hv⟩ := Option.isSome_iff_exists.mp (h a (List.mem_cons_self a t))
      simp only [List.filterMap_cons, hv, Option.map_some', List.map_cons]
      rw [reindex_map_fst raw t fun f hf => h f (List.mem_cons_of_mem a hf)]

/-- Re-indexing depends on the raw mapping only through name lookup. -/
theorem reindex_lookup_congr (raw raw2 : List (String × ℚ)) :
    ∀ names : List String, (∀ f ∈ names, raw.lookup f = raw2.lookup f) →
      (names.filterMap fun f => (raw.lookup f).map fun v => (f, v))
        = names.filterMap fun f => (raw2.lookup f).map fun v => (f, v)
  | [], _ => rfl
  | a :: t, h => by
      simp only [List.filterMap_cons, h a (List.mem_cons_self a t)]
      rw [reindex_lookup_congr raw raw2 t
        fun f hf => h f (List.mem_cons_of_mem a hf)]

/-- The missing-feature list depends on the raw mapping only through name
lookup. -/
theorem missing_lookup_congr (raw raw2 : List (String × ℚ)) :
    ∀ names : List String, (∀ f ∈ names, raw.lookup f = raw2.lookup f) →
      missing_features names raw = missing_features names raw2
  | [], _ => rfl
  | a :: t, h => by
      unfold missing_features
      simp only [List.filter_cons, h a (List.mem_cons_self a t)]
      have ht := missing_lookup_congr raw raw2 t
        fun f hf => h f (List.mem_cons_of_mem a hf)
      unfold missing_features at ht
      rw [ht]

/-- Slicing class index 1 from a features × classes array whose every row
has at least two entries yields the second entry of every row. -/
theorem slice_class_one_pairs :
    ∀ pairs : List (ℚ × ℚ),
      slice_class_one (pairs.map fun p => [p.1, p.2])
        = .ok (pairs.map Prod.snd)
  | [] => rfl
  | p :: t => by
      simp only [List.map_cons, slice_class_one, List.get?]
      rw [slice_class_one_pairs t]

/-- The reconciled registry's names are the model-declared names that the
registry also declares, in the model's order. -/
theorem feature_ranges_ordered_fst :
    ∀ names : List String,
      (feature_ranges_ordered names).map Prod.fst
        = names.filter fun f => (feature_ranges.lookup f).isSome
  | [] => rfl
  | a :: t => by
      unfold feature_ranges_ordered
      simp only [List.filterMap_cons, List.filter_cons]
      cases ha : feature_ranges.lookup a with
      | none =>
          simp only [Option.map_none', Option.isSome_none, Bool.false_eq_true,
            if_false]
          have ht := feature_ranges_ordered_fst t
          unfold feature_ranges_ordered at ht
          exact ht
      | some k =>
          simp only [Option.map_some', Option.isSome_some, if_true,
            List.map_cons]
          have ht := feature_ranges_ordered_fst t
          unfold feature_ranges_ordered at ht
          rw [ht]

/-- A name the registry lacks is also absent from every reconciled
registry. -/
theorem ordered_lookup_none (f : String)
    (hf : feature_ranges.lookup f = none) :
    ∀ names : List String, (feature_ranges_ordered names).lookup f = none
  | [] => rfl
  | a :: t => by
      unfold feature_ranges_ordered
      simp only [List.filterMap_cons]
      cases ha : feature_ranges.lookup a with
      | none =>
          simp only [Option.map_none']
          have ht := ordered_lookup_none f hf t
          unfold feature_ranges_ordered at ht
          exact ht
      | some k =>
          simp only [Option.map_some']
          have hfa : f ≠ a := fun h => by rw [h, ha] at hf; cases hf
          have ht := ordered_lookup_none f hf t
          unfold feature_ranges_ordered at ht
          have hba : (f == a) = false := beq_eq_false_iff_ne.mpr hfa
          simp only [List.lookup, hba]
          exact ht

/-- A successfully rendered form covers exactly the walked names, in
order. -/
theorem render_fields_map_fst (ranges : List (String × FeatureKind))
    (choose : String → FeatureKind → ℚ) :
    ∀ (names : List String) (vals : List (String × ℚ)),
      render_fields ranges choose names = some vals →
      vals.map Prod.fst = names
  | [], vals, h => by cases h; rfl
  | f :: t, vals, h => by
      simp only [render_fields] at h
      cases hl : ranges.lookup f with
      | none => rw [hl] at h; cases h
      | some k =>
          rw [hl] at h
          cases hr : render_fields ranges choose t with
          | none => rw [hr] at h; cases h
          | some rest =>
              rw [hr] at h
              cases h
              simp only [List.map_cons]
              rw [render_fields_map_fst ranges choose t rest hr]

/-- A walked name that the active registry lacks makes the form loop fail. -/
theorem render_fields_none (ranges : List (String × FeatureKind))
    (choose : String → FeatureKind → ℚ) :
    ∀ (names : List String) (f : String), f ∈ names →
      ranges.lookup f = none →
      render_fields ranges choose names = none
  | g :: t, f, hmem, hf => by
      simp only [render_fields]
      rcases List.mem_cons.mp hmem with h | h
      · subst h
        rw [hf]
      · cases hl : ranges.lookup g with
        | none => rfl
        | some k => rw [render_fields_none ranges choose t f h hf]

/-- Stepping the request pipeline when every prediction stage succeeds. -/
theorem run_request_shown (m : Model) (raw cols : List (String × ℚ))
    (labels : List ℤ) (cls : ℤ) (rows : List (List ℚ)) (proba : List ℚ)
    (p1 : ℚ)
    (hb : build_vector m.feature_names raw = .ok cols)
    (hp : m.predict (cols.map Prod.snd) = .ok labels)
    (hl : labels.get? 0 = some cls)
    (hq : m.predict_proba (cols.map Prod.snd) = .ok rows)
    (hr : rows.get? 0 = some proba)
    (h1 : proba.get? 1 = some p1) :
    run_request m raw
      = .shown ⟨cls, p1 * 100, 100 - p1 * 100, risk_category (p1 * 100)⟩
          (attribution_stage m cols) := by
  simp only [run_request, hb, hp, hl, hq, hr, h1]

end App3Lemmas

/-- C2: the derived risk tier is low iff p ≤ 30, moderate iff 30 < p ≤ 70,
high iff p > 70; in particular p = 30 is low (per the source's
`>30 and <=70` moderate band), p = 70 moderate, p = 70.1 high,
p = 0 low, p = 100 high. -/
theorem risk_tier_thresholds :
    (∀ p : ℚ, (App3.risk_category p = .low ↔ p ≤ 30)
      ∧ (App3.risk_category p = .moderate ↔ 30 < p ∧ p ≤ 70)
      ∧ (App3.risk_category p = .high ↔ 70 < p))
    ∧ App3.risk_category 30 = .low
    ∧ App3.risk_category 70 = .moderate
    ∧ App3.risk_category 70.1 = .high
    ∧ App3.risk_category 0 = .low
    ∧ App3.risk_category 100 = .high := by
  refine ⟨fun p => ?_, by norm_num [App3.risk_category],
    by norm_num [App3.risk_category], by norm_num [App3.risk_category],
    by norm_num [App3.risk_category], by norm_num [App3.risk_category]⟩
  unfold App3.risk_category
  split_ifs with h1 h2
  · exact ⟨⟨(fun hc => nomatch hc), fun hp => absurd h1.1 (not_lt.mpr hp)⟩,
      ⟨fun _ => h1, fun _ => rfl⟩,
      ⟨(fun hc => nomatch hc), fun hp => absurd h1.2 (not_le.mpr hp)⟩⟩
  · exact ⟨⟨(fun hc => nomatch hc),
        fun hp => absurd h2 (not_lt.mpr (hp.trans (by norm_num)))⟩,
      ⟨(fun hc => nomatch hc), fun hp => absurd hp h1⟩,
      ⟨fun _ => h2, fun _ => rfl⟩⟩
  · have hp30 : p ≤ 30 := by
      rcases not_and_or.mp h1 with h | h
      · exact le_of_not_lt h
      · exact absurd (not_le.mp h) h2
    exact ⟨⟨fun _ => hp30, fun _ => rfl⟩,
      ⟨(fun hc => nomatch hc), fun hp => absurd hp h1⟩,
      ⟨(fun hc => nomatch hc), fun hp => absurd hp h2⟩⟩

/-- C5: contract resolution — when the model declares a feature-name list,
`feature_input_order` is exactly that list in names and order; when it
declares none, it is the registry's declaration order. -/
theorem contract_resolution_order :
    (∀ names : List String, App3.feature_input_order (some names) = names)
    ∧ App3.feature_input_order none =
        ["Intraoperative Blood Loss", "CEA", "Albumin", "TNM Stage", "Age",
         "Max Tumor Diameter", "Lymphovascular Invasion"]
    ∧ App3.feature_input_order none = App3.registry_order :=
  ⟨fun _ => rfl, rfl, rfl⟩

/-- C1 (amended): when the model declares a feature-name list, the built
vector's columns are exactly that list (the resolved `required_order`) in
names and order, and the result depends on the raw mapping only through
name lookup, so permuting its key order changes nothing; when the model
declares no list, no re-indexing happens and the columns simply follow the
raw mapping's key insertion order. -/
theorem vector_column_order :
    (∀ (names : List String) (raw cols : List (String × ℚ)),
        App3.build_vector (some names) raw = .ok cols →
        cols.map Prod.fst = names)
    ∧ (∀ (names : List String) (raw raw2 : List (String × ℚ)),
        (∀ f ∈ names, raw.lookup f = raw2.lookup f) →
        App3.build_vector (some names) raw
          = App3.build_vector (some names) raw2)
    ∧ (∀ raw : List (String × ℚ), App3.build_vector none raw = .ok raw) := by
  refine ⟨?_, ?_, fun _ => rfl⟩
  · intro names raw cols h
    simp only [App3.build_vector] at h
    split at h
    · rename_i hm
      cases h
      exact App3Lemmas.reindex_map_fst raw names fun f hf =>
        App3Lemmas.lookup_isSome_of_missing_nil hm hf
    · cases h
  · intro names raw raw2 h
    simp only [App3.build_vector]
    rw [App3Lemmas.missing_lookup_congr raw raw2 names h,
        App3Lemmas.reindex_lookup_congr raw raw2 names h]

/-- C1 witness: the amended theorem at a concrete model list and two
permuted raw mappings. -/
theorem vector_column_order_witness :
    [(("Age" : String), (76 : ℚ)), ("CEA", 1)].map Prod.fst = ["Age", "CEA"]
    ∧ App3.build_vector (some ["Age", "CEA"]) [("CEA", (1 : ℚ)), ("Age", 76)]
        = App3.build_vector (some ["Age", "CEA"])
            [("Age", (76 : ℚ)), ("CEA", 1)] :=
  ⟨vector_column_order.1 ["Age", "CEA"] [("CEA", 1), ("Age", 76)] _ rfl,
   vector_column_order.2.1 ["Age", "CEA"] _ _
     (by intro f hf; fin_cases hf <;> rfl)⟩

/-- C1 counterexample: with a model that declares no feature-name list, the
block at lines 362-377 never re-orders columns, so a raw mapping whose keys
are a permutation of the registry order (here: its reversal) yields a
vector whose column order differs from the resolved `required_order`. -/
theorem vector_column_order_counterexample :
    App3.raw_reversed = App3.raw_defaults.reverse
    ∧ App3.build_vector none App3.raw_defaults = .ok App3.raw_defaults
    ∧ App3.build_vector none App3.raw_reversed = .ok App3.raw_reversed
    ∧ App3.raw_defaults.map Prod.fst = App3.feature_input_order none
    ∧ App3.raw_reversed.map Prod.fst ≠ App3.feature_input_order none := by
  exact ⟨rfl, rfl, rfl, rfl, by decide⟩

/-- C3 counterexample: the vector builder performs no bounds check — the
raw input with Age = 1000 (declared bounds 25-90) builds successfully,
there is no `InvalidValue` failure anywhere in the block, and the model is
invoked on the out-of-bounds vector. -/
theorem invalid_value_counterexample :
    App3.feature_ranges.lookup "Age" = some (.numerical 25 90 76)
    ∧ App3.value_in_bounds (.numerical 25 90 76) 1000 = false
    ∧ App3.build_vector (some App3.registry_order) App3.raw_age_out_of_bounds
        = .ok App3.raw_age_out_of_bounds
    ∧ App3.run_request
          (App3.stub_model (some App3.registry_order) [0.92, 0.08])
          App3.raw_age_out_of_bounds
        = .shown ⟨0, 8, 92, .low⟩ (.chart [0, 0, 0, 0, 0, 0, 0]) := by
  refine ⟨rfl, by norm_num [App3.value_in_bounds], rfl, ?_⟩
  rw [App3Lemmas.run_request_shown
    (App3.stub_model (some App3.registry_order) [0.92, 0.08])
    App3.raw_age_out_of_bounds App3.raw_age_out_of_bounds
    [0] 0 [[0.92, 0.08]] [0.92, 0.08] 0.08 rfl rfl rfl rfl rfl rfl]
  norm_num [App3.risk_category, App3.attribution_stage, App3.stub_model,
    App3.select_contributions, App3.raw_age_out_of_bounds, List.replicate]

/-- C3 (amended): the vector builder validates only presence, never value
bounds — for every raw input containing a value for each required name it
succeeds, whether or not the values satisfy the declared bounds/options;
bounds are enforced solely by the upstream input widgets. -/
theorem no_bounds_revalidation (names : List String)
    (raw : List (String × ℚ))
    (h : ∀ f ∈ names, (raw.lookup f).isSome) :
    App3.build_vector (some names) raw
      = .ok (names.filterMap fun f => (raw.lookup f).map fun v => (f, v)) := by
  have hm : App3.missing_features names raw = [] := by
    refine List.filter_eq_nil_iff.mpr fun f hf => ?_
    obtain ⟨v, hv⟩ := Option.isSome_iff_exists.mp (h f hf)
    simp [hv]
  simp [App3.build_vector, hm]

/-- C3 witness: the amended theorem at the complete registry-order input
whose Age value is out of bounds. -/
theorem no_bounds_revalidation_witness :
    App3.build_vector (some App3.registry_order) App3.raw_age_out_of_bounds
      = .ok (App3.registry_order.filterMap fun f =>
          (App3.raw_age_out_of_bounds.lookup f).map fun v => (f, v)) :=
  no_bounds_revalidation App3.registry_order App3.raw_age_out_of_bounds
    (by decide)

/-- C4 counterexample: with a model that declares no feature-name list, no
missing-feature check runs — a raw input lacking Age (required by the
resolved contract, here the registry order) builds successfully and the
model is invoked, instead of the request aborting with a missing-feature
error. -/
theorem missing_feature_counterexample :
    "Age" ∈ App3.feature_input_order none
    ∧ App3.raw_missing_age.lookup "Age" = none
    ∧ App3.build_vector none App3.raw_missing_age = .ok App3.raw_missing_age
    ∧ App3.run_request (App3.stub_model none [0.92, 0.08])
        App3.raw_missing_age
      = .shown ⟨0, 8, 92, .low⟩ (.chart [0, 0, 0, 0, 0, 0]) := by
  refine ⟨by decide, rfl, rfl, ?_⟩
  rw [App3Lemmas.run_request_shown (App3.stub_model none [0.92, 0.08])
    App3.raw_missing_age App3.raw_missing_age
    [0] 0 [[0.92, 0.08]] [0.92, 0.08] 0.08 rfl rfl rfl rfl rfl rfl]
  norm_num [App3.risk_category, App3.attribution_stage, App3.stub_model,
    App3.select_contributions, App3.raw_missing_age, List.replicate]

/-- C4 (amended): when the model declares a feature-name list, a raw input
missing any required feature fails the build with an error naming every
missing feature (the absent one among them), and the request outcome is the
abort for every possible model behaviour, so no prediction is attempted;
when the model declares no list, no missing-feature check is performed and
the raw mapping is passed to the model as is. -/
theorem missing_feature_aborts :
    (∀ (names : List String) (raw : List (String × ℚ)) (f : String),
        f ∈ names → raw.lookup f = none →
        App3.build_vector (some names) raw
          = .error (.missingFeature (App3.missing_features names raw))
        ∧ f ∈ App3.missing_features names raw)
    ∧ (∀ (names : List String) (raw : List (String × ℚ))
        (pr : List ℚ → Except String (List ℤ))
        (prp : List ℚ → Except String (List (List ℚ)))
        (ex : List (String × ℚ) → Except String App3.ShapOutput),
        App3.missing_features names raw ≠ [] →
        App3.run_request ⟨some names, pr, prp, ex⟩ raw
          = .aborted (App3.missing_features names raw))
    ∧ (∀ raw : List (String × ℚ), App3.build_vector none raw = .ok raw) := by
  refine ⟨?_, ?_, fun _ => rfl⟩
  · intro names raw f hmem hnone
    have hin : f ∈ App3.missing_features names raw :=
      List.mem_filter.mpr ⟨hmem, by simp [hnone]⟩
    have hne : App3.missing_features names raw ≠ [] :=
      List.ne_nil_of_mem hin
    exact ⟨by simp only [App3.build_vector, if_neg hne], hin⟩
  · intro names raw pr prp ex hne
    have hb : App3.build_vector (some names) raw
        = .error (.missingFeature (App3.missing_features names raw)) := by
      simp only [App3.build_vector, if_neg hne]
    simp only [App3.run_request, hb]

/-- C4 witness: the amended theorem at the registry-order contract and the
raw input lacking Age. -/
theorem missing_feature_aborts_witness :
    (App3.build_vector (some App3.registry_order) App3.raw_missing_age
        = .error (.missingFeature
            (App3.missing_features App3.registry_order App3.raw_missing_age))
      ∧ "Age" ∈ App3.missing_features App3.registry_order App3.raw_missing_age)
    ∧ App3.run_request
          ⟨some App3.registry_order, fun _ => .ok [0],
            fun _ => .ok [[0.92, 0.08]], fun _ => .error "x"⟩
          App3.raw_missing_age
        = .aborted
            (App3.missing_features App3.registry_order App3.raw_missing_age) :=
  ⟨missing_feature_aborts.1 App3.registry_order App3.raw_missing_age "Age"
      (by decide) rfl,
   missing_feature_aborts.2.1 App3.registry_order App3.raw_missing_age _ _ _
      (by decide)⟩

/-- C6: the reported death probability is the class-index-1 probability
times 100 whenever prediction succeeds; and the end-to-end §8 scenario
input against the stub model whose predict_proba returns [0.92, 0.08]
yields death probability 8.0 and risk tier low. -/
theorem end_to_end_death_probability :
    (∀ (m : App3.Model) (raw cols : List (String × ℚ)) (labels : List ℤ)
        (cls : ℤ) (rows : List (List ℚ)) (proba : List ℚ) (p1 : ℚ),
        App3.build_vector m.feature_names raw = .ok cols →
        m.predict (cols.map Prod.snd) = .ok labels →
        labels.get? 0 = some cls →
        m.predict_proba (cols.map Prod.snd) = .ok rows →
        rows.get? 0 = some proba →
        proba.get? 1 = some p1 →
        App3.run_request m raw
          = .shown ⟨cls, p1 * 100, 100 - p1 * 100,
              App3.risk_category (p1 * 100)⟩ (App3.attribution_stage m cols))
    ∧ App3.run_request
          (App3.stub_model (some (App3.raw_case.map Prod.fst)) [0.92, 0.08])
          App3.raw_case
        = .shown ⟨0, 8, 92, .low⟩ (.chart [0, 0, 0, 0, 0, 0, 0]) := by
  refine ⟨fun m raw cols labels cls rows proba p1 hb hp hl hq hr h1 =>
    App3Lemmas.run_request_shown m raw cols labels cls rows proba p1
      hb hp hl hq hr h1, ?_⟩
  rw [App3Lemmas.run_request_shown
    (App3.stub_model (some (App3.raw_case.map Prod.fst)) [0.92, 0.08])
    App3.raw_case App3.raw_case [0] 0 [[0.92, 0.08]] [0.92, 0.08] 0.08
    rfl rfl rfl rfl rfl rfl]
  norm_num [App3.risk_category, App3.attribution_stage, App3.stub_model,
    App3.select_contributions, App3.raw_case, List.replicate]

/-- C6 witness: the general clause at a two-class stub model on the empty
frame. -/
theorem end_to_end_death_probability_witness :
    App3.run_request (App3.stub_model none [(0.5 : ℚ), 0.5]) []
      = .shown ⟨0, (0.5 : ℚ) * 100, 100 - (0.5 : ℚ) * 100,
          App3.risk_category ((0.5 : ℚ) * 100)⟩
          (App3.attribution_stage (App3.stub_model none [0.5, 0.5]) []) :=
  end_to_end_death_probability.1 (App3.stub_model none [0.5, 0.5]) [] []
    [0] 0 [[0.5, 0.5]] [0.5, 0.5] 0.5 rfl rfl rfl rfl rfl rfl

/-- C7: an exception raised by the model in predict or in predict_proba is
caught by the outer request handler and reported as a prediction failure;
the pipeline is a total function of the request (no exception escapes as a
crash) and a failed prediction never equals a shown result. -/
theorem prediction_error_caught :
    (∀ (m : App3.Model) (raw cols : List (String × ℚ)) (e : String),
        App3.build_vector m.feature_names raw = .ok cols →
        m.predict (cols.map Prod.snd) = .error e →
        App3.run_request m raw = .predictionFailed e)
    ∧ (∀ (m : App3.Model) (raw cols : List (String × ℚ)) (labels : List ℤ)
        (cls : ℤ) (e : String),
        App3.build_vector m.feature_names raw = .ok cols →
        m.predict (cols.map Prod.snd) = .ok labels →
        labels.get? 0 = some cls →
        m.predict_proba (cols.map Prod.snd) = .error e →
        App3.run_request m raw = .predictionFailed e)
    ∧ (∀ (e : String) (r : App3.PredictionResult)
        (a : App3.AttributionOutcome),
        App3.RequestOutcome.predictionFailed e ≠ .shown r a) := by
  refine ⟨?_, ?_, fun e r a h => by cases h⟩
  · intro m raw cols e hb hp
    simp only [App3.run_request, hb, hp]
  · intro m raw cols labels cls e hb hp hl hq
    simp only [App3.run_request, hb, hp, hl, hq]

/-- C7 witness: a model whose predict raises on every input. -/
theorem prediction_error_caught_witness :
    App3.run_request App3.failing_model App3.raw_defaults
      = .predictionFailed "shape mismatch" :=
  prediction_error_caught.1 App3.failing_model App3.raw_defaults
    App3.raw_defaults "shape mismatch" rfl rfl

/-- C8: attribution failure is caught independently of prediction — if a
request through an explainer shows prediction result r, the same request
through an explainer that raises on the built vector still shows the
identical r, with the attribution reported as the caught non-fatal failure;
and the SHAP stage maps any engine error to that failure outcome. -/
theorem attribution_failure_nonfatal :
    (∀ (fn : App3.ModelNames)
        (pr : List ℚ → Except String (List ℤ))
        (prp : List ℚ → Except String (List (List ℚ)))
        (ex ex2 : List (String × ℚ) → Except String App3.ShapOutput)
        (raw cols : List (String × ℚ)) (r : App3.PredictionResult)
        (a : App3.AttributionOutcome) (e : String),
        App3.run_request ⟨fn, pr, prp, ex⟩ raw = .shown r a →
        App3.build_vector fn raw = .ok cols →
        ex2 cols = .error e →
        App3.run_request ⟨fn, pr, prp, ex2⟩ raw = .shown r (.failed e))
    ∧ (∀ (m : App3.Model) (cols : List (String × ℚ)) (e : String),
        m.explain cols = .error e →
        App3.attribution_stage m cols = .failed e) := by
  refine ⟨?_, fun m cols e he => by simp only [App3.attribution_stage, he]⟩
  intro fn pr prp ex ex2 raw cols r a e hshown hb he2
  simp only [App3.run_request, hb] at hshown ⊢
  cases hp : pr (cols.map Prod.snd) with
  | error err => simp only [hp] at hshown; cases hshown
  | ok labels =>
    simp only [hp] at hshown ⊢
    cases hl : labels.get? 0 with
    | none => simp only [hl] at hshown; cases hshown
    | some cls =>
      simp only [hl] at hshown ⊢
      cases hq : prp (cols.map Prod.snd) with
      | error err => simp only [hq] at hshown; cases hshown
      | ok rows =>
        simp only [hq] at hshown ⊢
        cases hr : rows.get? 0 with
        | none => simp only [hr] at hshown; cases hshown
        | some proba =>
          simp only [hr] at hshown ⊢
          cases h1 : proba.get? 1 with
          | none => simp only [h1] at hshown; cases hshown
          | some p1 =>
            simp only [h1] at hshown ⊢
            injection hshown with hr2 ha2
            rw [← hr2]
            simp only [App3.attribution_stage, he2]

/-- C8 witness: a model whose prediction succeeds with probabilities
[0.92, 0.08] while its explainer raises. -/
theorem attribution_failure_nonfatal_witness :
    App3.run_request
        ⟨none, fun _ => Except.ok [0], fun _ => Except.ok [[0.92, 0.08]],
          fun _ => Except.error "unsupported model type"⟩ App3.raw_defaults
      = .shown ⟨0, (0.08 : ℚ) * 100, 100 - (0.08 : ℚ) * 100,
          App3.risk_category ((0.08 : ℚ) * 100)⟩
          (.failed "unsupported model type") :=
  attribution_failure_nonfatal.1 none (fun _ => Except.ok [0])
    (fun _ => Except.ok [[0.92, 0.08]])
    (fun _ => Except.error "unsupported model type")
    (fun _ => Except.error "unsupported model type")
    App3.raw_defaults App3.raw_defaults _ _ "unsupported model type"
    (App3Lemmas.run_request_shown
      ⟨none, fun _ => Except.ok [0], fun _ => Except.ok [[0.92, 0.08]],
        fun _ => Except.error "unsupported model type"⟩
      App3.raw_defaults App3.raw_defaults
      [0] 0 [[0.92, 0.08]] [0.92, 0.08] 0.08 rfl rfl rfl rfl rfl rfl)
    rfl rfl

/-- C9: shape dispatch — a per-class output of shape 1 × n × 2 yields
class index 1 of every feature, and a flat output yields its first row
unchanged with no class-index lookup; concretely at the 1 × 7 × 2 and
1 × 7 stubs of §8. -/
theorem shap_shape_dispatch :
    (∀ pairs : List (ℚ × ℚ),
        App3.select_contributions (.perClass [pairs.map fun p => [p.1, p.2]])
          = .ok (pairs.map Prod.snd))
    ∧ (∀ (row : List ℚ) (rest : List (List ℚ)),
        App3.select_contributions (.flat (row :: rest)) = .ok row)
    ∧ App3.select_contributions
        (.perClass [[[10, 1], [20, 2], [30, 3], [40, 4], [50, 5], [60, 6],
          [70, 7]]]) = .ok [1, 2, 3, 4, 5, 6, 7]
    ∧ App3.select_contributions (.flat [[1, 2, 3, 4, 5, 6, 7]])
        = .ok [1, 2, 3, 4, 5, 6, 7] :=
  ⟨fun pairs => App3Lemmas.slice_class_one_pairs pairs,
   fun _ _ => rfl, rfl, rfl⟩

/-- C10 counterexample: a model-declared feature absent from the registry
is not merely dropped from the input vector with a warning — the form loop
looks every model-declared name up in the reconciled registry, so the
lookup of the unknown feature fails (the KeyError at line 287) and no
input vector is produced at all, even though the resolver recorded the
warning and dropped the feature from the reconciled registry. -/
theorem model_only_feature_counterexample :
    App3.feature_ranges.lookup "Tumor Marker X" = none
    ∧ App3.feature_ranges_ordered ["Age", "Tumor Marker X"]
        = [("Age", .numerical 25 90 76)]
    ∧ App3.model_only_features ["Age", "Tumor Marker X"] = ["Tumor Marker X"]
    ∧ App3.render_form (some ["Age", "Tumor Marker X"]) App3.default_choice
        = none :=
  ⟨rfl, rfl, rfl, rfl⟩

/-- C10 (amended): when the model declares names, the reconciled registry
holds exactly the names present in both the model's list and the registry,
in the model's order; a successfully rendered form covers exactly the
model-declared names, so registry features outside the model's list are
excluded from the form and the vector; but a model-declared feature that
the registry lacks does not yield a vector without that feature — form
rendering fails outright (no vector at all), while the resolver records
the warning for it. -/
theorem reconciliation_order (names : List String)
    (choose : String → App3.FeatureKind → ℚ) :
    (App3.feature_ranges_ordered names).map Prod.fst
        = (names.filter fun f => (App3.feature_ranges.lookup f).isSome)
    ∧ (∀ vals, App3.render_form (some names) choose = some vals →
        vals.map Prod.fst = names)
    ∧ ((∃ f ∈ names, App3.feature_ranges.lookup f = none) →
        App3.render_form (some names) choose = none
        ∧ App3.model_only_features names ≠ []) := by
  refine ⟨App3Lemmas.feature_ranges_ordered_fst names, ?_, ?_⟩
  · intro vals h
    exact App3Lemmas.render_fields_map_fst _ choose names vals h
  · rintro ⟨f, hmem, hnone⟩
    constructor
    · exact App3Lemmas.render_fields_none _ choose names f hmem
        (App3Lemmas.ordered_lookup_none f hnone names)
    · exact List.ne_nil_of_mem
        (List.mem_filter.mpr ⟨hmem, by simp [hnone]⟩)

/-- C10 witness: the amended theorem at a two-name model list with one
name the registry lacks, and at a one-name list fully covered. -/
theorem reconciliation_order_witness :
    ((App3.feature_ranges_ordered ["Age", "Tumor Marker Y"]).map Prod.fst
        = (["Age", "Tumor Marker Y"].filter
            fun f => (App3.feature_ranges.lookup f).isSome))
    ∧ [(("Age" : String), (76 : ℚ))].map Prod.fst = ["Age"]
    ∧ (App3.render_form (some ["Age", "Tumor Marker Y"])
          App3.default_choice = none
        ∧ App3.model_only_features ["Age", "Tumor Marker Y"] ≠ []) :=
  ⟨(reconciliation_order ["Age", "Tumor Marker Y"] App3.default_choice).1,
   (reconciliation_order ["Age"] App3.default_choice).2.1 [("Age", 76)] rfl,
   (reconciliation_order ["Age", "Tumor Marker Y"] App3.default_choice).2.2
     ⟨"Tumor Marker Y", by decide, rfl⟩⟩
